import Mathlib

/-!
Verification development for the AIBanker frontend session/token pipeline.

The definitions below are shallow embeddings of:
  * the Token Store (browser localStorage keys `token` / `refreshToken`),
  * the axios HTTP client of `services/authApi.ts`, i.e. its request
    interceptor (bearer-token injection) and its response interceptor
    (one-shot 401 refresh-and-retry),
  * the two divergent `authSlice` Redux variants found in the repository
    (namespaces `AuthA` and `AuthB` below),
  * the `dealsSlice` / `documentsSlice` CRUD reducers.

JavaScript strings-or-null become `Option String`; machine-level details
(promises, the event loop) are modelled by explicit state passing, and the
environment (the backend) by a list of responses consumed one per outbound
request.
-/

namespace AIBanker

/-- The Token Store: localStorage restricted to the two keys the source
uses, `token` and `refreshToken`.  `none` models an absent key. -/
structure Storage where
  token : Option String
  refreshToken : Option String
deriving Repr, DecidableEq

/-- A backend response: `ok access refresh` is a 2xx response whose JSON
body carries `access_token` / `refresh_token` fields (for non-refresh
requests the two strings are just an opaque body); `err status` is an
HTTP error response with the given status code. -/
inductive Resp where
  | ok (access refresh : String)
  | err (status : Nat)
deriving Repr, DecidableEq

/-- An axios request config: its `Authorization` header (if set), the
ad-hoc `_retry` marker the response interceptor stamps on a config, and
whether the request targets `POST /auth/refresh`. -/
structure Config where
  auth : Option String
  retry : Bool
  isRefresh : Bool
deriving Repr, DecidableEq

/-- Client-side observable state of one run: the Token Store plus counters
and a log of outbound requests.  `log` records, in send order, whether each
outbound request was a refresh call and the `Authorization` header it
carried; `redirects` counts assignments of `window.location.href = '/login'`. -/
structure ClientState where
  storage : Storage
  refreshCalls : Nat
  originalSends : Nat
  redirects : Nat
  log : List (Bool × Option String)
deriving Repr, DecidableEq

/-- The request interceptor of `services/authApi.ts` (also duplicated
verbatim in `dealsApi.ts` / `documentsApi.ts`): read
`localStorage.getItem('token')`; if a token is present, set
`config.headers.Authorization = Bearer <token>`; otherwise return the
config unchanged. -/
def applyRequestInterceptor (st : Storage) (cfg : Config) : Config :=
  match st.token with
  | some t => { cfg with auth := some ("Bearer " ++ t) }
  | none => cfg

/-- Book-keeping for one outbound request: bump the matching counter and
append the request (refresh flag, Authorization header) to the log. -/
def recordSend (cs : ClientState) (cfg : Config) : ClientState :=
  { cs with
    refreshCalls := cs.refreshCalls + (if cfg.isRefresh then 1 else 0),
    originalSends := cs.originalSends + (if cfg.isRefresh then 0 else 1),
    log := cs.log ++ [(cfg.isRefresh, cfg.auth)] }

/-- One request through the `api` axios instance of `services/authApi.ts`,
interceptors included.  The environment is the list `rs` of responses the
backend gives to successive outbound requests.  Faithful to the source:

  * the request interceptor injects the bearer token read from the Token
    Store at send time;
  * on a 401 for a config not yet marked `_retry`, the response interceptor
    marks it, and if a refresh token is stored it performs
    `await api.post('/auth/refresh', ...)` — through this very same
    pipeline, so a 401 to the refresh call recursively triggers the
    interceptor again;
  * on refresh success it stores the new pair, rewrites the
    `Authorization` header and re-issues the original request through the
    pipeline (`return api(originalRequest)`);
  * on refresh failure it removes both stored tokens, navigates to
    `/login`, and rejects with the original error;
  * with no refresh token, or on a non-401 / already-retried error, it
    rejects with the error unchanged.

`fuel` bounds the recursion depth; `none` models divergence or an
exhausted response oracle. -/
def send : Nat → ClientState → List Resp → Config →
    Option (ClientState × List Resp × Except Nat (String × String))
  | 0, _, _, _ => none
  | Nat.succ fuel, cs, rs, cfg =>
    let cfg := applyRequestInterceptor cs.storage cfg
    let cs := recordSend cs cfg
    match rs with
    | [] => none
    | r :: rest =>
      match r with
      | Resp.ok a b => some (cs, rest, Except.ok (a, b))
      | Resp.err status =>
        if status == 401 && !cfg.retry then
          let cfg := { cfg with retry := true }
          match cs.storage.refreshToken with
          | some _rt =>
            match send fuel cs rest { auth := none, retry := false, isRefresh := true } with
            | none => none
            | some (cs1, rs1, Except.ok (a, r2)) =>
              let cs2 := { cs1 with storage := { token := some a, refreshToken := some r2 } }
              let cfg2 := { cfg with auth := some ("Bearer " ++ a) }
              send fuel cs2 rs1 cfg2
            | some (cs1, rs1, Except.error _) =>
              let cs2 := { cs1 with
                storage := { token := none, refreshToken := none },
                redirects := cs1.redirects + 1 }
              some (cs2, rs1, Except.error status)
          | none => some (cs, rest, Except.error status)
        else some (cs, rest, Except.error status)

/-- Issue one fresh request (no Authorization header set by the caller,
`_retry` unset) through the client, starting from Token Store `st`. -/
def issueRequest (fuel : Nat) (st : Storage) (rs : List Resp) :
    Option (ClientState × List Resp × Except Nat (String × String)) :=
  send fuel { storage := st, refreshCalls := 0, originalSends := 0,
              redirects := 0, log := [] } rs
    { auth := none, retry := false, isRefresh := false }

/-- The Authorization header the request interceptor produces for a fresh
request given the stored access token. -/
def bearerOf : Option String → Option String
  | some t => some ("Bearer " ++ t)
  | none => none

/-- How a backend response surfaces to the awaiting caller when no further
interception happens: a 2xx resolves with its body, an error rejects with
its status. -/
def respToResult : Resp → Except Nat (String × String)
  | Resp.ok a b => Except.ok (a, b)
  | Resp.err s => Except.error s

/-- A cached user profile (the fields of the source's `User` interface that
the reducers read; purely presentational optional fields are elided, no
reducer inspects them). -/
structure User where
  id : Nat
  email : String
  username : String
  role : String
deriving Repr, DecidableEq

/-- The `AuthState` of both `authSlice` variants. -/
structure AuthState where
  user : Option User
  token : Option String
  refreshToken : Option String
  isAuthenticated : Bool
  isLoading : Bool
  error : Option String
deriving Repr, DecidableEq

/-- JavaScript truthiness of `localStorage.getItem(...)` (`!!x`): `null`
and the empty string are falsy, every other string is truthy. -/
def truthyStr : Option String → Bool
  | none => false
  | some s => !(s == "")

/-- `initialState` of both `authSlice` variants: tokens read from the
Token Store, `isAuthenticated: !!localStorage.getItem('token')`, no user,
not loading, no error. -/
def initAuthState (st : Storage) : AuthState :=
  { user := none, token := st.token, refreshToken := st.refreshToken,
    isAuthenticated := truthyStr st.token, isLoading := false, error := none }

/-- The invariant stated by the specification for the session:
`isAuthenticated == (accessToken != null)`. -/
def authInv (s : AuthState) : Prop :=
  s.isAuthenticated = s.token.isSome

/-!
`AuthA` embeds the `authSlice` variant whose thunks themselves write
localStorage (login/register `setItem` on success, the logout thunk
`removeItem` unconditionally) and whose `login.rejected` /
`register.rejected` / `getCurrentUser.rejected` reducers null the session
fields.  Each operation acts on the pair (Redux state, Token Store).
-/
namespace AuthA

/-- `login.pending`: `isLoading = true`, `error = null`. -/
def loginPending (p : AuthState × Storage) : AuthState × Storage :=
  ({ p.1 with isLoading := true, error := none }, p.2)

/-- Successful login: the thunk persists both tokens to the Token Store,
then `login.fulfilled` stores user, tokens, `isAuthenticated = true`,
`error = null`. -/
def loginSuccess (p : AuthState × Storage) (u : User) (a r : String) :
    AuthState × Storage :=
  ({ p.1 with isLoading := false, user := some u, token := some a,
              refreshToken := some r, isAuthenticated := true, error := none },
   { token := some a, refreshToken := some r })

/-- Failed login: the thunk touches nothing in the Token Store (it only
writes on success); `login.rejected` nulls user/tokens, sets
`isAuthenticated = false` and records the error message. -/
def loginRejected (p : AuthState × Storage) (msg : String) :
    AuthState × Storage :=
  ({ p.1 with isLoading := false, error := some msg, isAuthenticated := false,
              user := none, token := none, refreshToken := none }, p.2)

/-- `register.pending` (same shape as login). -/
def registerPending (p : AuthState × Storage) : AuthState × Storage :=
  ({ p.1 with isLoading := true, error := none }, p.2)

/-- Successful registration (same shape as login). -/
def registerSuccess (p : AuthState × Storage) (u : User) (a r : String) :
    AuthState × Storage :=
  ({ p.1 with isLoading := false, user := some u, token := some a,
              refreshToken := some r, isAuthenticated := true, error := none },
   { token := some a, refreshToken := some r })

/-- Failed registration (same shape as failed login). -/
def registerRejected (p : AuthState × Storage) (msg : String) :
    AuthState × Storage :=
  ({ p.1 with isLoading := false, error := some msg, isAuthenticated := false,
              user := none, token := none, refreshToken := none }, p.2)

/-- `getCurrentUser.fulfilled`: only `state.user = action.payload`. -/
def getCurrentUserFulfilled (p : AuthState × Storage) (u : User) :
    AuthState × Storage :=
  ({ p.1 with user := some u }, p.2)

/-- `getCurrentUser.rejected`: nulls the whole session and removes both
Token Store keys. -/
def getCurrentUserRejected (p : AuthState × Storage) : AuthState × Storage :=
  ({ p.1 with user := none, token := none, refreshToken := none,
              isAuthenticated := false },
   { token := none, refreshToken := none })

/-- The whole logout operation: the thunk calls the backend inside
`try { ... } catch { /* continue */ }` — `backend` is that call's outcome
and is deliberately discarded — then unconditionally removes both Token
Store keys; `logout.fulfilled` then nulls the session fields and the
error. -/
def logoutRun (_backend : Except Nat Unit) (p : AuthState × Storage) :
    AuthState × Storage :=
  ({ p.1 with user := none, token := none, refreshToken := none,
              isAuthenticated := false, error := none },
   { token := none, refreshToken := none })

/-- `clearAuth` reducer: nulls the session fields and removes both Token
Store keys. -/
def clearAuth (p : AuthState × Storage) : AuthState × Storage :=
  ({ p.1 with user := none, token := none, refreshToken := none,
              isAuthenticated := false },
   { token := none, refreshToken := none })

/-- `clearError` reducer. -/
def clearError (p : AuthState × Storage) : AuthState × Storage :=
  ({ p.1 with error := none }, p.2)

end AuthA

/-!
`AuthB` embeds the other `authSlice` variant: localStorage writes happen
inside the reducers, there are additional `refreshToken` thunk cases and a
`setToken` reducer, and — unlike `AuthA` — `login.rejected`,
`register.rejected` and `getCurrentUser.rejected` only record the error,
leaving session fields and Token Store untouched.
-/
namespace AuthB

/-- `login.pending`. -/
def loginPending (p : AuthState × Storage) : AuthState × Storage :=
  ({ p.1 with isLoading := true, error := none }, p.2)

/-- `login.fulfilled`: stores user and tokens, sets
`isAuthenticated = true`, and `setItem`s both tokens (the error field is
not cleared in this variant). -/
def loginFulfilled (p : AuthState × Storage) (u : User) (a r : String) :
    AuthState × Storage :=
  ({ p.1 with isLoading := false, isAuthenticated := true, user := some u,
              token := some a, refreshToken := some r },
   { token := some a, refreshToken := some r })

/-- `login.rejected`: only `isLoading = false` and the error message. -/
def loginRejected (p : AuthState × Storage) (msg : String) :
    AuthState × Storage :=
  ({ p.1 with isLoading := false, error := some msg }, p.2)

/-- `register.pending`. -/
def registerPending (p : AuthState × Storage) : AuthState × Storage :=
  ({ p.1 with isLoading := true, error := none }, p.2)

/-- `register.fulfilled` (same shape as login). -/
def registerFulfilled (p : AuthState × Storage) (u : User) (a r : String) :
    AuthState × Storage :=
  ({ p.1 with isLoading := false, isAuthenticated := true, user := some u,
              token := some a, refreshToken := some r },
   { token := some a, refreshToken := some r })

/-- `register.rejected` (same shape as `login.rejected`). -/
def registerRejected (p : AuthState × Storage) (msg : String) :
    AuthState × Storage :=
  ({ p.1 with isLoading := false, error := some msg }, p.2)

/-- `refreshToken.fulfilled`: stores the new token pair in state and Token
Store.  Note the source sets neither `isAuthenticated` nor `isLoading`. -/
def refreshFulfilled (p : AuthState × Storage) (a r : String) :
    AuthState × Storage :=
  ({ p.1 with token := some a, refreshToken := some r },
   { token := some a, refreshToken := some r })

/-- `refreshToken.rejected`: nulls the session fields and removes both
Token Store keys. -/
def refreshRejected (p : AuthState × Storage) : AuthState × Storage :=
  ({ p.1 with user := none, token := none, refreshToken := none,
              isAuthenticated := false },
   { token := none, refreshToken := none })

/-- `getCurrentUser.pending`: `isLoading = true`. -/
def getCurrentUserPending (p : AuthState × Storage) : AuthState × Storage :=
  ({ p.1 with isLoading := true }, p.2)

/-- `getCurrentUser.fulfilled`: `isLoading = false`, user replaced. -/
def getCurrentUserFulfilled (p : AuthState × Storage) (u : User) :
    AuthState × Storage :=
  ({ p.1 with isLoading := false, user := some u }, p.2)

/-- `getCurrentUser.rejected`: `isLoading = false` and the error message —
nothing else changes in this variant. -/
def getCurrentUserRejected (p : AuthState × Storage) (msg : String) :
    AuthState × Storage :=
  ({ p.1 with isLoading := false, error := some msg }, p.2)

/-- The whole logout operation: the thunk swallows any backend failure
(`backend` is discarded), and `logout.fulfilled` nulls the session fields
and removes both Token Store keys. -/
def logoutRun (_backend : Except Nat Unit) (p : AuthState × Storage) :
    AuthState × Storage :=
  ({ p.1 with user := none, token := none, refreshToken := none,
              isAuthenticated := false },
   { token := none, refreshToken := none })

/-- `setToken` reducer: stores the access token, sets
`isAuthenticated = true`, `setItem('token', ...)`. -/
def setToken (p : AuthState × Storage) (t : String) : AuthState × Storage :=
  ({ p.1 with token := some t, isAuthenticated := true },
   { p.2 with token := some t })

/-- `clearAuth` reducer. -/
def clearAuth (p : AuthState × Storage) : AuthState × Storage :=
  ({ p.1 with user := none, token := none, refreshToken := none,
              isAuthenticated := false },
   { token := none, refreshToken := none })

/-- `clearError` reducer. -/
def clearError (p : AuthState × Storage) : AuthState × Storage :=
  ({ p.1 with error := none }, p.2)

end AuthB

/-- A deal record (the fields of the source's `Deal` interface that some
reducer reads or writes, plus the identifying basics; optional
presentational metadata that no reducer inspects is elided). -/
structure Deal where
  id : Nat
  name : String
  deal_type : String
  status : String
  deal_currency : String
  created_by : Nat
  due_diligence_completed : Bool
  pitchbook_generated : Bool
  risk_analysis_completed : Bool
  ai_processing_status : String
  processing_time : Option Nat
  created_at : String
  updated_at : String
deriving Repr, DecidableEq

/-- Pagination block of `DealsState`. -/
structure Pagination where
  page : Nat
  limit : Nat
  total : Nat
deriving Repr, DecidableEq

/-- The `DealsState` of `dealsSlice`; `filters` holds the optional
`status` / `deal_type` filters. -/
structure DealsState where
  deals : List Deal
  currentDeal : Option Deal
  isLoading : Bool
  error : Option String
  filterStatus : Option String
  filterDealType : Option String
  pagination : Pagination
deriving Repr, DecidableEq

/-- `fetchDeals.pending`. -/
def fetchDealsPending (s : DealsState) : DealsState :=
  { s with isLoading := true, error := none }

/-- `fetchDeals.rejected`. -/
def fetchDealsRejected (s : DealsState) (msg : String) : DealsState :=
  { s with isLoading := false, error := some msg }

/-- `fetchDealById.rejected`. -/
def fetchDealByIdRejected (s : DealsState) (msg : String) : DealsState :=
  { s with isLoading := false, error := some msg }

/-- `createDeal.fulfilled`: `state.deals.unshift(action.payload)` and the
new entity becomes the current deal. -/
def createDealFulfilled (s : DealsState) (d : Deal) : DealsState :=
  { s with isLoading := false, deals := d :: s.deals, currentDeal := some d }

/-- `createDeal.rejected`. -/
def createDealRejected (s : DealsState) (msg : String) : DealsState :=
  { s with isLoading := false, error := some msg }

/-- `updateDeal.fulfilled`: `findIndex` on id (JS returns -1 when absent,
modelled by `findIdx? = none`), in-place assignment when found, and the
current deal is replaced when its id matches. -/
def updateDealFulfilled (s : DealsState) (d : Deal) : DealsState :=
  let s := { s with isLoading := false }
  let s :=
    match s.deals.findIdx? (fun deal => deal.id == d.id) with
    | some idx => { s with deals := s.deals.set idx d }
    | none => s
  match s.currentDeal with
  | some cd => if cd.id == d.id then { s with currentDeal := some d } else s
  | none => s

/-- `updateDeal.rejected`. -/
def updateDealRejected (s : DealsState) (msg : String) : DealsState :=
  { s with isLoading := false, error := some msg }

/-- `deleteDeal.fulfilled`:
`state.deals = state.deals.filter(deal => deal.id !== action.payload)`,
and the current deal is dropped when its id matches. -/
def deleteDealFulfilled (s : DealsState) (dealId : Nat) : DealsState :=
  { s with isLoading := false,
           deals := s.deals.filter (fun deal => deal.id != dealId),
           currentDeal :=
             match s.currentDeal with
             | some cd => if cd.id == dealId then none else some cd
             | none => none }

/-- `deleteDeal.rejected`. -/
def deleteDealRejected (s : DealsState) (msg : String) : DealsState :=
  { s with isLoading := false, error := some msg }

/-- `startAIProcessing.rejected`. -/
def startAIProcessingRejected (s : DealsState) (msg : String) : DealsState :=
  { s with isLoading := false, error := some msg }

/-- `getDealStatus` has no `.rejected` case registered in the slice, so a
rejected status poll leaves the state untouched (Redux Toolkit returns the
state unchanged when no case matches). -/
def getDealStatusRejected (s : DealsState) : DealsState := s

/-- A document record (fields of the source's `Document` interface that
some reducer reads or writes, plus identifying basics). -/
structure Document where
  id : Nat
  filename : String
  document_type : String
  status : String
  deal_id : Nat
  uploaded_by : Nat
  is_processed : Bool
  is_failed : Bool
  created_at : String
  updated_at : String
deriving Repr, DecidableEq

/-- The `DocumentsState` of `documentsSlice`. -/
structure DocumentsState where
  documents : List Document
  currentDocument : Option Document
  isLoading : Bool
  error : Option String
  uploadProgress : Nat
  isUploading : Bool
deriving Repr, DecidableEq

/-- `fetchDocuments.rejected`. -/
def fetchDocumentsRejected (s : DocumentsState) (msg : String) : DocumentsState :=
  { s with isLoading := false, error := some msg }

/-- `uploadDocument.fulfilled`:
`state.documents.unshift(action.payload)`, progress pegged to 100. -/
def uploadDocumentFulfilled (s : DocumentsState) (d : Document) : DocumentsState :=
  { s with isLoading := false, isUploading := false, uploadProgress := 100,
           documents := d :: s.documents }

/-- `uploadDocument.rejected`: loading/uploading flags reset, progress
back to 0, error recorded. -/
def uploadDocumentRejected (s : DocumentsState) (msg : String) : DocumentsState :=
  { s with isLoading := false, isUploading := false, uploadProgress := 0,
           error := some msg }

/-- `deleteDocument.fulfilled`:
`state.documents = state.documents.filter(doc => doc.id !== action.payload)`,
and the current document is dropped when its id matches. -/
def deleteDocumentFulfilled (s : DocumentsState) (docId : Nat) : DocumentsState :=
  { s with isLoading := false,
           documents := s.documents.filter (fun doc => doc.id != docId),
           currentDocument :=
             match s.currentDocument with
             | some cd => if cd.id == docId then none else some cd
             | none => none }

/-- `deleteDocument.rejected`. -/
def deleteDocumentRejected (s : DocumentsState) (msg : String) : DocumentsState :=
  { s with isLoading := false, error := some msg }

/-- `getDocumentStatus` has no `.rejected` case registered, so a rejected
status poll leaves the state untouched. -/
def getDocumentStatusRejected (s : DocumentsState) : DocumentsState := s

/-- The domain payload of the deals slice: everything except the
loading flag and the error string. -/
def dealsCore (s : DealsState) :
    List Deal × Option Deal × Option String × Option String × Pagination :=
  (s.deals, s.currentDeal, s.filterStatus, s.filterDealType, s.pagination)

/-- The domain payload of the documents slice: the list and the current
item (progress and loading flags excluded). -/
def docsCore (s : DocumentsState) : List Document × Option Document :=
  (s.documents, s.currentDocument)

/-! ## Theorems -/

/-- The deal list after `updateDeal.fulfilled` is determined by the linear
scan alone: set at the first matching index, unchanged when no id
matches (the `currentDeal` branch never touches the list). -/
theorem updateDealFulfilled_deals_eq (s : DealsState) (d : Deal) :
    (updateDealFulfilled s d).deals =
      match s.deals.findIdx? (fun deal => deal.id == d.id) with
      | some idx => s.deals.set idx d
      | none => s.deals := by
  obtain ⟨deals, currentDeal, iL, err, fs, fd, pg⟩ := s
  unfold updateDealFulfilled
  cases currentDeal <;> cases h : deals.findIdx? (fun deal => deal.id == d.id) <;>
    simp [h] <;> split <;> rfl

/-- C1: a request that receives exactly one 401 while a refresh token is
stored and the refresh endpoint succeeds triggers exactly one refresh
call; the returned token pair is persisted to the Token Store; the
original request is re-issued exactly once (two sends of the original in
total), carrying `Bearer <new access token>`; and the caller receives the
retried request's response (whatever it is). -/
theorem claim_C1_refresh_retry (t0 : Option String) (R a r : String) (rr : Resp) :
    issueRequest 5 ⟨t0, some R⟩ [Resp.err 401, Resp.ok a r, rr] =
      some ({ storage := { token := some a, refreshToken := some r },
              refreshCalls := 1, originalSends := 2, redirects := 0,
              log := [(false, bearerOf t0), (true, bearerOf t0),
                      (false, some ("Bearer " ++ a))] },
            [], respToResult rr) := by
  cases t0 <;> cases rr <;>
    simp [issueRequest, send, applyRequestInterceptor, recordSend, bearerOf, respToResult]

/-- C2 is false as stated: when the refresh call itself answers 401, that
401 passes through the same response interceptor (the refresh request's
config has no `_retry` mark), which issues a second refresh call.  In the
concrete run below — original request 401, first refresh call 401, second
refresh call 500 — the refresh endpoint is called twice (and `/login` is
navigated to twice), refuting "the refresh endpoint is not called more
than once for that request". -/
theorem claim_C2_counterexample :
    issueRequest 5 ⟨some "T0", some "R"⟩ [Resp.err 401, Resp.err 401, Resp.err 500] =
      some ({ storage := { token := none, refreshToken := none },
              refreshCalls := 2, originalSends := 1, redirects := 2,
              log := [(false, some "Bearer T0"), (true, some "Bearer T0"),
                      (true, some "Bearer T0")] },
            [], Except.error 401) := by
  rfl

/-- C2 amended: when the refresh call fails with any non-401 status, the
Token Store is cleared, the client navigates to the login entry point
exactly once, the original request fails with its original 401, and the
refresh endpoint was called exactly once.  (A 401 from the refresh
endpoint instead re-enters the interceptor and triggers a further refresh
call, as `claim_C2_counterexample` shows.) -/
theorem claim_C2_refresh_failure (t0 : Option String) (R : String) (s : Nat)
    (h : s ≠ 401) :
    issueRequest 5 ⟨t0, some R⟩ [Resp.err 401, Resp.err s] =
      some ({ storage := { token := none, refreshToken := none },
              refreshCalls := 1, originalSends := 1, redirects := 1,
              log := [(false, bearerOf t0), (true, bearerOf t0)] },
            [], Except.error 401) := by
  cases t0 <;>
    simp [issueRequest, send, applyRequestInterceptor, recordSend, bearerOf, h]

/-- Witness for `claim_C2_refresh_failure` at the concrete input
`t0 = some "T0"`, `R = "R"`, refresh failing with 500. -/
theorem claim_C2_refresh_failure_witness :
    issueRequest 5 ⟨some "T0", some "R"⟩ [Resp.err 401, Resp.err 500] =
      some ({ storage := { token := none, refreshToken := none },
              refreshCalls := 1, originalSends := 1, redirects := 1,
              log := [(false, bearerOf (some "T0")), (true, bearerOf (some "T0"))] },
            [], Except.error 401) :=
  claim_C2_refresh_failure (some "T0") "R" 500 (by decide)

/-- C3: a 401 with no stored refresh token never calls the refresh
endpoint (zero refresh calls, a single send of the original request, no
redirect), leaves the Token Store untouched, and rejects immediately with
the original 401 — for any remaining environment and any fuel. -/
theorem claim_C3_no_refresh_token (fuel : Nat) (t0 : Option String) (rest : List Resp) :
    issueRequest (fuel + 1) ⟨t0, none⟩ (Resp.err 401 :: rest) =
      some ({ storage := ⟨t0, none⟩, refreshCalls := 0, originalSends := 1,
              redirects := 0, log := [(false, bearerOf t0)] },
            rest, Except.error 401) := by
  cases t0 <;> rfl

/-- C6: the request interceptor reads the current access token at send
time; with a stored token every outbound request carries
`Authorization: Bearer <token>`, and with no stored token the config is
left untouched, so a request issued without an Authorization header goes
out without one — as the logged header of a completed send shows. -/
theorem claim_C6_bearer_injection (t : String) (rt t0 : Option String) (cfg : Config)
    (fuel : Nat) (a b : String) (rest : List Resp) :
    applyRequestInterceptor ⟨some t, rt⟩ cfg = { cfg with auth := some ("Bearer " ++ t) } ∧
    applyRequestInterceptor ⟨none, rt⟩ cfg = cfg ∧
    issueRequest (fuel + 1) ⟨t0, rt⟩ (Resp.ok a b :: rest) =
      some ({ storage := ⟨t0, rt⟩, refreshCalls := 0, originalSends := 1,
              redirects := 0, log := [(false, bearerOf t0)] },
            rest, Except.ok (a, b)) := by
  refine ⟨rfl, rfl, ?_⟩
  cases t0 <;> rfl

/-- C4 is false as stated: start from the reachable initial state read
from a Token Store holding a refresh token but no access token (so
`isAuthenticated = false`, and the invariant holds), and let the
`refreshToken` thunk succeed.  `refreshToken.fulfilled` stores the new
access token but never sets `isAuthenticated`, so afterwards
`accessToken != null` while `isAuthenticated` is still false. -/
theorem claim_C4_counterexample :
    ¬ authInv (AuthB.refreshFulfilled
        (initAuthState ⟨none, some "R"⟩, (⟨none, some "R"⟩ : Storage)) "T1" "R1").1 := by
  simp [authInv, AuthB.refreshFulfilled, initAuthState, truthyStr]

/-- C4 amended: the invariant `isAuthenticated == (accessToken != null)`
is preserved by every auth-slice operation except `refreshToken.fulfilled`,
which preserves it only from an already-authenticated state; and it holds
for initialisation from any Token Store whose access token is not the
empty string (JavaScript `!!` treats `""` as absent). -/
theorem claim_C4_invariant (s : AuthState) (st st' : Storage) (u : User)
    (a r msg t : String) (backend : Except Nat Unit)
    (hinv : authInv s) (hinit : st'.token ≠ some "") :
    authInv (AuthB.loginPending (s, st)).1 ∧
    authInv (AuthB.loginFulfilled (s, st) u a r).1 ∧
    authInv (AuthB.loginRejected (s, st) msg).1 ∧
    authInv (AuthB.registerPending (s, st)).1 ∧
    authInv (AuthB.registerFulfilled (s, st) u a r).1 ∧
    authInv (AuthB.registerRejected (s, st) msg).1 ∧
    (s.isAuthenticated = true → authInv (AuthB.refreshFulfilled (s, st) a r).1) ∧
    authInv (AuthB.refreshRejected (s, st)).1 ∧
    authInv (AuthB.getCurrentUserPending (s, st)).1 ∧
    authInv (AuthB.getCurrentUserFulfilled (s, st) u).1 ∧
    authInv (AuthB.getCurrentUserRejected (s, st) msg).1 ∧
    authInv (AuthB.logoutRun backend (s, st)).1 ∧
    authInv (AuthB.setToken (s, st) t).1 ∧
    authInv (AuthB.clearAuth (s, st)).1 ∧
    authInv (AuthB.clearError (s, st)).1 ∧
    authInv (initAuthState st') := by
  refine ⟨hinv, rfl, hinv, hinv, rfl, hinv, ?_, rfl, hinv, hinv, hinv, rfl, rfl, rfl, hinv, ?_⟩
  · intro h
    exact h
  · cases hst : st'.token with
    | none => simp [authInv, initAuthState, truthyStr, hst]
    | some v =>
      have hv : v ≠ "" := fun hv => hinit (by rw [hst, hv])
      simp [authInv, initAuthState, truthyStr, hst, hv]

/-- Witness for `claim_C4_invariant` at a concrete authenticated state and
a concrete non-empty stored token. -/
theorem claim_C4_invariant_witness :
    authInv (AuthB.loginFulfilled
      (initAuthState ⟨some "T", some "R"⟩, (⟨some "T", some "R"⟩ : Storage))
      ⟨1, "a@b.com", "u", "analyst"⟩ "T1" "R1").1 :=
  (claim_C4_invariant (initAuthState ⟨some "T", some "R"⟩)
    ⟨some "T", some "R"⟩ ⟨some "T2", none⟩ ⟨1, "a@b.com", "u", "analyst"⟩
    "T1" "R1" "msg" "tk" (Except.ok ()) rfl (by decide)).2.1

/-- C5: both logout variants end anonymous with an empty Token Store,
whatever the backend logout call returned (the thunks swallow the
failure), for every starting state. -/
theorem claim_C5_logout (backend : Except Nat Unit) (s : AuthState) (st : Storage) :
    (AuthA.logoutRun backend (s, st)).1.user = none ∧
    (AuthA.logoutRun backend (s, st)).1.token = none ∧
    (AuthA.logoutRun backend (s, st)).1.refreshToken = none ∧
    (AuthA.logoutRun backend (s, st)).1.isAuthenticated = false ∧
    (AuthA.logoutRun backend (s, st)).2 = ⟨none, none⟩ ∧
    (AuthB.logoutRun backend (s, st)).1.user = none ∧
    (AuthB.logoutRun backend (s, st)).1.token = none ∧
    (AuthB.logoutRun backend (s, st)).1.refreshToken = none ∧
    (AuthB.logoutRun backend (s, st)).1.isAuthenticated = false ∧
    (AuthB.logoutRun backend (s, st)).2 = ⟨none, none⟩ :=
  ⟨rfl, rfl, rfl, rfl, rfl, rfl, rfl, rfl, rfl, rfl⟩

/-- C7 is false as stated for the `AuthB` variant: after a successful
login ("T1"/"R1"), a rejected `getCurrentUser` leaves the session fully
intact — token still stored, still authenticated, Token Store unchanged —
instead of clearing it. -/
theorem claim_C7_counterexample :
    (AuthB.getCurrentUserRejected
      (AuthB.loginFulfilled (initAuthState ⟨none, none⟩, (⟨none, none⟩ : Storage))
        ⟨1, "a@b.com", "u", "analyst"⟩ "T1" "R1")
      "Failed to get user info").1.token = some "T1" ∧
    (AuthB.getCurrentUserRejected
      (AuthB.loginFulfilled (initAuthState ⟨none, none⟩, (⟨none, none⟩ : Storage))
        ⟨1, "a@b.com", "u", "analyst"⟩ "T1" "R1")
      "Failed to get user info").1.isAuthenticated = true ∧
    (AuthB.getCurrentUserRejected
      (AuthB.loginFulfilled (initAuthState ⟨none, none⟩, (⟨none, none⟩ : Storage))
        ⟨1, "a@b.com", "u", "analyst"⟩ "T1" "R1")
      "Failed to get user info").2 = ⟨some "T1", some "R1"⟩ :=
  ⟨rfl, rfl, rfl⟩

/-- C7 amended: on success both variants replace the cached profile and
leave the authentication flag and Token Store untouched; on failure only
the `AuthA` variant clears the session and empties the Token Store — the
`AuthB` variant records the error and leaves session and Token Store
exactly as they were. -/
theorem claim_C7_getCurrentUser (s : AuthState) (st : Storage) (u : User) (msg : String) :
    (AuthA.getCurrentUserFulfilled (s, st) u).1.user = some u ∧
    (AuthA.getCurrentUserFulfilled (s, st) u).1.isAuthenticated = s.isAuthenticated ∧
    (AuthA.getCurrentUserFulfilled (s, st) u).2 = st ∧
    (AuthB.getCurrentUserFulfilled (s, st) u).1.user = some u ∧
    (AuthB.getCurrentUserFulfilled (s, st) u).1.isAuthenticated = s.isAuthenticated ∧
    (AuthB.getCurrentUserFulfilled (s, st) u).2 = st ∧
    (AuthA.getCurrentUserRejected (s, st)).1.user = none ∧
    (AuthA.getCurrentUserRejected (s, st)).1.token = none ∧
    (AuthA.getCurrentUserRejected (s, st)).1.refreshToken = none ∧
    (AuthA.getCurrentUserRejected (s, st)).1.isAuthenticated = false ∧
    (AuthA.getCurrentUserRejected (s, st)).2 = ⟨none, none⟩ ∧
    (AuthB.getCurrentUserRejected (s, st) msg).1.user = s.user ∧
    (AuthB.getCurrentUserRejected (s, st) msg).1.token = s.token ∧
    (AuthB.getCurrentUserRejected (s, st) msg).1.refreshToken = s.refreshToken ∧
    (AuthB.getCurrentUserRejected (s, st) msg).1.isAuthenticated = s.isAuthenticated ∧
    (AuthB.getCurrentUserRejected (s, st) msg).2 = st :=
  ⟨rfl, rfl, rfl, rfl, rfl, rfl, rfl, rfl, rfl, rfl, rfl, rfl, rfl, rfl, rfl, rfl⟩

/-- C8 is false as stated: in the `AuthA` variant, a rejected login from
an authenticated state with persisted tokens results in an anonymous
state (`isAuthenticated = false`) while both tokens are still persisted
in the Token Store. -/
theorem claim_C8_counterexample :
    (AuthA.loginRejected
      (initAuthState ⟨some "T", some "R"⟩, (⟨some "T", some "R"⟩ : Storage))
      "Login failed").1.isAuthenticated = false ∧
    (AuthA.loginRejected
      (initAuthState ⟨some "T", some "R"⟩, (⟨some "T", some "R"⟩ : Storage))
      "Login failed").2 = ⟨some "T", some "R"⟩ :=
  ⟨rfl, rfl⟩

/-- C8 amended: every successful login/register/refresh writes the
received pair through to the Token Store (both variants); the failure
paths `refreshToken.rejected`, `AuthA`'s `getCurrentUser.rejected`, both
logouts and `clearAuth` do land anonymous with a cleared store — but
login/register rejections never clear the store: `AuthA`'s set the state
anonymous while leaving the persisted tokens behind, and `AuthB`'s leave
both state flags and store untouched. -/
theorem claim_C8_token_store (s : AuthState) (st : Storage) (u : User)
    (a r msg : String) (backend : Except Nat Unit) :
    (AuthA.loginSuccess (s, st) u a r).2 = ⟨some a, some r⟩ ∧
    (AuthA.registerSuccess (s, st) u a r).2 = ⟨some a, some r⟩ ∧
    (AuthB.loginFulfilled (s, st) u a r).2 = ⟨some a, some r⟩ ∧
    (AuthB.registerFulfilled (s, st) u a r).2 = ⟨some a, some r⟩ ∧
    (AuthB.refreshFulfilled (s, st) a r).2 = ⟨some a, some r⟩ ∧
    ((AuthB.refreshRejected (s, st)).1.isAuthenticated = false ∧
      (AuthB.refreshRejected (s, st)).2 = ⟨none, none⟩) ∧
    ((AuthA.getCurrentUserRejected (s, st)).1.isAuthenticated = false ∧
      (AuthA.getCurrentUserRejected (s, st)).2 = ⟨none, none⟩) ∧
    ((AuthA.logoutRun backend (s, st)).1.isAuthenticated = false ∧
      (AuthA.logoutRun backend (s, st)).2 = ⟨none, none⟩) ∧
    ((AuthB.logoutRun backend (s, st)).1.isAuthenticated = false ∧
      (AuthB.logoutRun backend (s, st)).2 = ⟨none, none⟩) ∧
    ((AuthA.clearAuth (s, st)).1.isAuthenticated = false ∧
      (AuthA.clearAuth (s, st)).2 = ⟨none, none⟩) ∧
    ((AuthA.loginRejected (s, st) msg).1.isAuthenticated = false ∧
      (AuthA.loginRejected (s, st) msg).2 = st) ∧
    ((AuthA.registerRejected (s, st) msg).1.isAuthenticated = false ∧
      (AuthA.registerRejected (s, st) msg).2 = st) ∧
    (AuthB.loginRejected (s, st) msg).2 = st ∧
    (AuthB.registerRejected (s, st) msg).2 = st :=
  ⟨rfl, rfl, rfl, rfl, rfl, ⟨rfl, rfl⟩, ⟨rfl, rfl⟩, ⟨rfl, rfl⟩, ⟨rfl, rfl⟩,
   ⟨rfl, rfl⟩, ⟨rfl, rfl⟩, ⟨rfl, rfl⟩, rfl, rfl⟩

/-- C9: a fulfilled create/upload prepends the returned entity to the
list; a fulfilled update replaces the entry at the first index whose id
matches the returned entity's (and leaves the list unchanged when no id
matches); a fulfilled delete keeps exactly the entries whose id differs
from the deleted id, in their original order (a sublist of the old
list) — for both the deals and the documents slice. -/
theorem claim_C9_crud (sD : DealsState) (d : Deal) (j dealId : Nat) (x : Deal)
    (sDoc : DocumentsState) (doc : Document) (docId : Nat) (y : Document) :
    (uploadDocumentFulfilled sDoc doc).documents = doc :: sDoc.documents ∧
    (createDealFulfilled sD d).deals = d :: sD.deals ∧
    ((∀ e ∈ sD.deals, e.id ≠ d.id) → (updateDealFulfilled sD d).deals = sD.deals) ∧
    (sD.deals.findIdx? (fun deal => deal.id == d.id) = some j →
      (updateDealFulfilled sD d).deals = sD.deals.set j d) ∧
    (x ∈ (deleteDealFulfilled sD dealId).deals ↔ x ∈ sD.deals ∧ x.id ≠ dealId) ∧
    (deleteDealFulfilled sD dealId).deals.Sublist sD.deals ∧
    (y ∈ (deleteDocumentFulfilled sDoc docId).documents ↔
      y ∈ sDoc.documents ∧ y.id ≠ docId) ∧
    (deleteDocumentFulfilled sDoc docId).documents.Sublist sDoc.documents := by
  refine ⟨rfl, rfl, ?_, ?_, ?_, ?_, ?_, ?_⟩
  · intro hnm
    have hnone : sD.deals.findIdx? (fun deal => deal.id == d.id) = none := by
      rw [List.findIdx?_eq_none_iff]
      intro e he
      simp [hnm e he]
    rw [updateDealFulfilled_deals_eq, hnone]
  · intro hj
    rw [updateDealFulfilled_deals_eq, hj]
  · simp [deleteDealFulfilled, List.mem_filter, bne_iff_ne]
  · exact List.filter_sublist (l := sD.deals)
  · simp [deleteDocumentFulfilled, List.mem_filter, bne_iff_ne]
  · exact List.filter_sublist (l := sDoc.documents)

/-- Witness for `claim_C9_crud`: with deals `[id 1, id 2]`, updating with
an entity of id 2 rewrites index 1 in place, and with deals `[id 1]` an
update with id 2 leaves the list unchanged. -/
theorem claim_C9_crud_witness :
    (updateDealFulfilled
      { deals := [⟨1, "A", "m_and_a", "active", "USD", 7, false, false, false,
                   "pending", none, "2024-01-01", "2024-01-02"⟩,
                  ⟨2, "B", "m_and_a", "active", "USD", 7, false, false, false,
                   "pending", none, "2024-01-03", "2024-01-04"⟩],
        currentDeal := none, isLoading := true, error := none,
        filterStatus := none, filterDealType := none,
        pagination := ⟨0, 10, 0⟩ }
      ⟨2, "B2", "m_and_a", "closed", "USD", 7, true, false, false,
       "completed", some 5, "2024-01-03", "2024-02-01"⟩).deals =
      [⟨1, "A", "m_and_a", "active", "USD", 7, false, false, false,
        "pending", none, "2024-01-01", "2024-01-02"⟩,
       ⟨2, "B2", "m_and_a", "closed", "USD", 7, true, false, false,
        "completed", some 5, "2024-01-03", "2024-02-01"⟩] ∧
    (updateDealFulfilled
      { deals := [⟨1, "A", "m_and_a", "active", "USD", 7, false, false, false,
                   "pending", none, "2024-01-01", "2024-01-02"⟩],
        currentDeal := none, isLoading := true, error := none,
        filterStatus := none, filterDealType := none,
        pagination := ⟨0, 10, 0⟩ }
      ⟨2, "B2", "m_and_a", "closed", "USD", 7, true, false, false,
       "completed", some 5, "2024-01-03", "2024-02-01"⟩).deals =
      [⟨1, "A", "m_and_a", "active", "USD", 7, false, false, false,
        "pending", none, "2024-01-01", "2024-01-02"⟩] := by
  constructor
  · have h := (claim_C9_crud
      { deals := [⟨1, "A", "m_and_a", "active", "USD", 7, false, false, false,
                   "pending", none, "2024-01-01", "2024-01-02"⟩,
                  ⟨2, "B", "m_and_a", "active", "USD", 7, false, false, false,
                   "pending", none, "2024-01-03", "2024-01-04"⟩],
        currentDeal := none, isLoading := true, error := none,
        filterStatus := none, filterDealType := none,
        pagination := ⟨0, 10, 0⟩ }
      ⟨2, "B2", "m_and_a", "closed", "USD", 7, true, false, false,
       "completed", some 5, "2024-01-03", "2024-02-01"⟩ 1 0
      ⟨1, "A", "m_and_a", "active", "USD", 7, false, false, false,
       "pending", none, "2024-01-01", "2024-01-02"⟩
      { documents := [], currentDocument := none, isLoading := false,
        error := none, uploadProgress := 0, isUploading := false }
      ⟨1, "f.pdf", "contract", "uploaded", 1, 7, false, false,
       "2024-01-01", "2024-01-02"⟩ 0
      ⟨1, "f.pdf", "contract", "uploaded", 1, 7, false, false,
       "2024-01-01", "2024-01-02"⟩).2.2.2.1 (by rfl)
    exact h
  · have h := (claim_C9_crud
      { deals := [⟨1, "A", "m_and_a", "active", "USD", 7, false, false, false,
                   "pending", none, "2024-01-01", "2024-01-02"⟩],
        currentDeal := none, isLoading := true, error := none,
        filterStatus := none, filterDealType := none,
        pagination := ⟨0, 10, 0⟩ }
      ⟨2, "B2", "m_and_a", "closed", "USD", 7, true, false, false,
       "completed", some 5, "2024-01-03", "2024-02-01"⟩ 1 0
      ⟨1, "A", "m_and_a", "active", "USD", 7, false, false, false,
       "pending", none, "2024-01-01", "2024-01-02"⟩
      { documents := [], currentDocument := none, isLoading := false,
        error := none, uploadProgress := 0, isUploading := false }
      ⟨1, "f.pdf", "contract", "uploaded", 1, 7, false, false,
       "2024-01-01", "2024-01-02"⟩ 0
      ⟨1, "f.pdf", "contract", "uploaded", 1, 7, false, false,
       "2024-01-01", "2024-01-02"⟩).2.2.1 (by decide)
    exact h

/-- C10: every rejected async operation of the deals and documents slices
leaves the entity list, the current-item field, the filters and the
pagination exactly as they were — only the loading/progress flags and the
error string are written. -/
theorem claim_C10_rejected_atomicity (sD : DealsState) (sDoc : DocumentsState)
    (msg : String) :
    dealsCore (fetchDealsRejected sD msg) = dealsCore sD ∧
    dealsCore (fetchDealByIdRejected sD msg) = dealsCore sD ∧
    dealsCore (createDealRejected sD msg) = dealsCore sD ∧
    dealsCore (updateDealRejected sD msg) = dealsCore sD ∧
    dealsCore (deleteDealRejected sD msg) = dealsCore sD ∧
    dealsCore (startAIProcessingRejected sD msg) = dealsCore sD ∧
    getDealStatusRejected sD = sD ∧
    docsCore (fetchDocumentsRejected sDoc msg) = docsCore sDoc ∧
    docsCore (uploadDocumentRejected sDoc msg) = docsCore sDoc ∧
    docsCore (deleteDocumentRejected sDoc msg) = docsCore sDoc ∧
    getDocumentStatusRejected sDoc = sDoc :=
  ⟨rfl, rfl, rfl, rfl, rfl, rfl, rfl, rfl, rfl, rfl, rfl⟩

end AIBanker
